import Mathlib

/-!
Shallow embedding of the Averna_LC billing / attendance core
(`app/models/__init__.py`, `app/crud/student.py`, `app/crud/payment.py`,
`app/api/debt.py`) and proofs about it.

Modelling conventions:
* Python `float` money values are modelled as `ℚ` (exact arithmetic).
* Python `date` is modelled as `PyDate` (year/month/day as integers); the
  attendance ledger keys records by `str(date)`, which is injective on
  dates, so the embedding keys records by the `PyDate` value itself.
* The nullable `total_money` column (the code guards `if self.total_money
  is not None else 0.0`) is modelled as `Option ℚ`.
* A SQLAlchemy session is modelled as an explicit `DB` record; `query(...)
  .filter(...).first()` becomes `List.find?`.
* `raise HTTPException` becomes `Except.error` with an `ApiError` drawn
  from the spec's error taxonomy; an unhandled Python `TypeError`
  (e.g. `None + amount`) is modelled as `ApiError.internal`.
-/

/-- Python `datetime.date`: year, month, day. -/
structure PyDate where
  year : Int
  month : Int
  day : Int
deriving DecidableEq, Repr

/-- Calendar order on dates (year, then month, then day). -/
def PyDate.le (a b : PyDate) : Prop :=
  a.year < b.year ∨ (a.year = b.year ∧ (a.month < b.month ∨ (a.month = b.month ∧ a.day ≤ b.day)))

instance (a b : PyDate) : Decidable (PyDate.le a b) := by
  unfold PyDate.le; infer_instance

/-- `Course` row: `id`, `name`, `lesson_per_month` (Integer column),
`cost` (Float column, modelled as `ℚ`). -/
structure Course where
  id : Nat
  name : String
  lesson_per_month : Int
  cost : ℚ
deriving DecidableEq, Repr

/-- One entry of the JSON attendance ledger stored on a student row:
`{"date": ..., "course_id": ..., "isAbsent": ..., "reason": ...}`. -/
structure AttendanceRecord where
  date : PyDate
  course_id : Option Nat
  isAbsent : Bool
  reason : String
deriving DecidableEq, Repr

/-- `Student` row: the fields the billing core reads and writes.
`courses` is the student's side of the `student_courses` association
table (a list of course ids). -/
structure Student where
  id : Nat
  num_lesson : Int
  total_money : Option ℚ
  attendance : List AttendanceRecord
  courses : List Nat
deriving DecidableEq, Repr

/-- `StudentCourseProgress` row (an enrollment). -/
structure StudentCourseProgress where
  student_id : Nat
  course_id : Nat
  lessons_attended : Int
  enrollment_date : PyDate
deriving DecidableEq, Repr

/-- `Payment` row. -/
structure Payment where
  id : Nat
  money : ℚ
  date : PyDate
  student_id : Nat
  course_id : Nat
deriving DecidableEq, Repr

/-- The relational store: the four tables the billing core touches. -/
structure DB where
  students : List Student
  courses : List Course
  progresses : List StudentCourseProgress
  payments : List Payment
deriving DecidableEq, Repr

/-- Error taxonomy of the spec (§7): `notFound`, `conflict`,
`validationError`; `internal` stands for an unhandled Python error. -/
inductive ApiError where
  | notFound
  | conflict
  | validationError
  | internal
deriving DecidableEq, Repr

/-- `db.query(Course).filter(Course.id == course_id).first()`. -/
def findCourse (courses : List Course) (course_id : Nat) : Option Course :=
  courses.find? (fun c => c.id == course_id)

/-- `db.query(Student).filter(Student.id == student_id).first()`. -/
def findStudent (db : DB) (student_id : Nat) : Option Student :=
  db.students.find? (fun s => s.id == student_id)

/-- The uniqueness key of an attendance record inside one student's
ledger: `record["date"] == date_str and record.get("course_id") == course_id`. -/
def keyMatches (r : AttendanceRecord) (d : PyDate) (course_id : Option Nat) : Bool :=
  r.date == d && r.course_id == course_id

/-- `Student._deduct_lesson_cost`: deduct one prorated lesson cost from
`total_money`; no-op when `course_id` is falsy (None or 0), the course
row is missing, or `lesson_per_month <= 0`. -/
def Student.deduct_lesson_cost (s : Student) (course_id : Option Nat) (courses : List Course) : Student :=
  match course_id with
  | none => s
  | some cid =>
    if cid = 0 then s
    else
      match findCourse courses cid with
      | none => s
      | some course =>
        if 0 < course.lesson_per_month then
          let lesson_cost := course.cost / (course.lesson_per_month : ℚ)
          let current_total := s.total_money.getD 0
          { s with total_money := some (current_total - lesson_cost) }
        else s

/-- `Student._refund_lesson_cost`: add one prorated lesson cost back to
`total_money`; same guards as `deduct_lesson_cost`. -/
def Student.refund_lesson_cost (s : Student) (course_id : Option Nat) (courses : List Course) : Student :=
  match course_id with
  | none => s
  | some cid =>
    if cid = 0 then s
    else
      match findCourse courses cid with
      | none => s
      | some course =>
        if 0 < course.lesson_per_month then
          let lesson_cost := course.cost / (course.lesson_per_month : ℚ)
          let current_total := s.total_money.getD 0
          { s with total_money := some (current_total + lesson_cost) }
        else s

/-- Update (in place) the first record of the ledger matching the key,
as the Python `next(...)` aliasing of the found dict does. -/
def updateFirst (l : List AttendanceRecord) (d : PyDate) (course_id : Option Nat)
    (f : AttendanceRecord → AttendanceRecord) : List AttendanceRecord :=
  match l with
  | [] => []
  | r :: rs =>
    if keyMatches r d course_id then f r :: rs
    else r :: updateFirst rs d course_id f

/-- `Student.add_attendance_record`: record-or-update one attendance
event and keep `num_lesson` / `total_money` consistent. -/
def Student.add_attendance_record (s : Student) (d : PyDate) (is_absent : Bool)
    (reason : String) (course_id : Option Nat) (courses : List Course) : Student :=
  match s.attendance.find? (fun r => keyMatches r d course_id) with
  | some existing_record =>
    let was_absent_before := existing_record.isAbsent
    let s1 := { s with
      attendance := updateFirst s.attendance d course_id
        (fun r => { r with isAbsent := is_absent, reason := reason, course_id := course_id }) }
    if was_absent_before && !is_absent then
      Student.deduct_lesson_cost { s1 with num_lesson := s1.num_lesson + 1 } course_id courses
    else if !was_absent_before && is_absent then
      Student.refund_lesson_cost { s1 with num_lesson := max 0 (s1.num_lesson - 1) } course_id courses
    else s1
  | none =>
    let s1 := { s with
      attendance := s.attendance ++ [⟨d, course_id, is_absent, reason⟩] }
    if !is_absent then
      Student.deduct_lesson_cost { s1 with num_lesson := s1.num_lesson + 1 } course_id courses
    else s1

/-- `crud.student.add_attendance_record`: look the student up, mutate it
via `Student.add_attendance_record`, commit. `none` = student not found. -/
def crud_add_attendance_record (db : DB) (student_id : Nat) (d : PyDate)
    (is_absent : Bool) (reason : String) (course_id : Option Nat) : Option DB :=
  match findStudent db student_id with
  | none => none
  | some _ =>
    some { db with
      students := db.students.map (fun t =>
        if t.id == student_id then
          Student.add_attendance_record t d is_absent reason course_id db.courses
        else t) }

/-- `crud.student.update_attendance_record` (restricted to the ledger of
one student): partial update of `isAbsent` / `reason` on the first
record matching the key; `none` when no record matches. -/
def update_attendance_record (s : Student) (d : PyDate) (course_id : Option Nat)
    (is_absent : Option Bool) (reason : Option String) : Option Student :=
  if s.attendance.any (fun r => keyMatches r d course_id) then
    some { s with
      attendance := updateFirst s.attendance d course_id (fun r =>
        let r1 := match is_absent with
          | some b => { r with isAbsent := b }
          | none => r
        match reason with
          | some str => { r1 with reason := str }
          | none => r1) }
  else none

/-- `crud.student.delete_attendance_record` (restricted to one student):
remove every record matching the key; `none` when nothing matched. -/
def delete_attendance_record (s : Student) (d : PyDate) (course_id : Option Nat) : Option Student :=
  let filtered := s.attendance.filter (fun r => !(keyMatches r d course_id))
  if filtered.length < s.attendance.length then
    some { s with attendance := filtered }
  else none

/-- `StudentCourseProgress.calculate_months_enrolled`, with `today`
passed explicitly instead of read from the clock. -/
def calculate_months_enrolled (enrollment_date today : PyDate) : Int :=
  max 1 ((today.year - enrollment_date.year) * 12 + (today.month - enrollment_date.month))

/-- `StudentCourseProgress.calculate_owed_amount`, given the enrollment's
course row. -/
def calculate_owed_amount (course : Course) (p : StudentCourseProgress) (today : PyDate) : ℚ :=
  course.cost * (calculate_months_enrolled p.enrollment_date today : ℚ)

/-- The enrollments of one student:
`db.query(StudentCourseProgress).filter(StudentCourseProgress.student_id == student_id).all()`. -/
def studentProgresses (db : DB) (student_id : Nat) : List StudentCourseProgress :=
  db.progresses.filter (fun p => p.student_id == student_id)

/-- The `student.payments` relationship: all payment rows of one student. -/
def studentPayments (db : DB) (student_id : Nat) : List Payment :=
  db.payments.filter (fun p => p.student_id == student_id)

/-- The owed amount of one enrollment, `none` when the enrollment's
course row is missing (Python would fail dereferencing `progress.course`). -/
def owed_for (db : DB) (p : StudentCourseProgress) (today : PyDate) : Option ℚ :=
  (findCourse db.courses p.course_id).map (fun c => calculate_owed_amount c p today)

/-- The aggregate fields of the response of `calculate_monthly_debt`. -/
structure DebtSummary where
  total_monthly_owed : ℚ
  total_paid : ℚ
  balance : ℚ
  owes_money : Bool
  debt_amount : ℚ
  overpaid_amount : ℚ
deriving DecidableEq, Repr

/-- `api.debt.calculate_monthly_debt` (`GET /student/{id}/monthly-debt`),
with `today` explicit. The per-course breakdown list of the response is
omitted; the aggregate fields are kept. -/
def calculate_monthly_debt (db : DB) (student_id : Nat) (today : PyDate) :
    Except ApiError DebtSummary :=
  match findStudent db student_id with
  | none => .error .notFound
  | some s =>
    match (studentProgresses db student_id).mapM (fun p => owed_for db p today) with
    | none => .error .internal
    | some owed_list =>
      let total_monthly_owed := owed_list.sum
      let total_paid := ((studentPayments db s.id).map Payment.money).sum
      let balance := total_paid - total_monthly_owed
      .ok { total_monthly_owed := total_monthly_owed
            total_paid := total_paid
            balance := balance
            owes_money := decide (balance < 0)
            debt_amount := if balance < 0 then |balance| else 0
            overpaid_amount := if 0 < balance then balance else 0 }

/-- `api.debt.enroll_student_in_course` (`POST /student/{id}/enroll-course`),
with the date string already parsed and `today` explicit. -/
def enroll_student_in_course (db : DB) (student_id course_id : Nat)
    (enrollment_date : Option PyDate) (today : PyDate) : Except ApiError DB :=
  let enrollment_date_obj := enrollment_date.getD today
  match findStudent db student_id with
  | none => .error .notFound
  | some _student =>
    match findCourse db.courses course_id with
    | none => .error .notFound
    | some _course =>
      match db.progresses.find? (fun p => p.student_id == student_id && p.course_id == course_id) with
      | some _ => .error .conflict
      | none =>
        .ok { db with
          progresses := db.progresses ++ [⟨student_id, course_id, 0, enrollment_date_obj⟩]
          students := db.students.map (fun s =>
            if s.id == student_id then
              (if course_id ∈ s.courses then s else { s with courses := s.courses ++ [course_id] })
            else s) }

/-- `api.debt.add_lessons_to_course` (`PUT /student/{id}/course/{cid}/add-lessons`):
returns the new store together with the reported
(`course_lessons_attended`, `total_lessons_attended`) pair. -/
def add_lessons_to_course (db : DB) (student_id course_id : Nat) (lessons_count : Int) :
    Except ApiError (DB × Int × Int) :=
  match db.progresses.find? (fun p => p.student_id == student_id && p.course_id == course_id) with
  | none => .error .notFound
  | some progress =>
    let new_lesson_count := progress.lessons_attended + lessons_count
    let progresses1 := db.progresses.map (fun p =>
      if p.student_id == student_id && p.course_id == course_id then
        { p with lessons_attended := new_lesson_count }
      else p)
    match findStudent db student_id with
    | some student =>
      let new_total_lessons := student.num_lesson + lessons_count
      .ok ({ db with
              progresses := progresses1
              students := db.students.map (fun s =>
                if s.id == student_id then { s with num_lesson := new_total_lessons } else s) },
            new_lesson_count, new_total_lessons)
    | none => .ok ({ db with progresses := progresses1 }, new_lesson_count, lessons_count)

/-- The autoincrement primary key handed to a freshly inserted payment row. -/
def next_payment_id (db : DB) : Nat :=
  (db.payments.map Payment.id).foldr max 0 + 1

/-- `api.debt.record_payment` (`POST /student/{id}/payment`), with the
date string already parsed and `today` explicit. Returns the new store
and the id of the inserted payment row; the read-only balance figures of
the response body are omitted. `student.total_money + amount` on a NULL
column would raise in Python, modelled as `internal`. -/
def record_payment (db : DB) (student_id course_id : Nat) (amount : ℚ)
    (payment_date : Option PyDate) (today : PyDate) : Except ApiError (DB × Nat) :=
  let payment_date_obj := payment_date.getD today
  match findStudent db student_id with
  | none => .error .notFound
  | some student =>
    match findCourse db.courses course_id with
    | none => .error .notFound
    | some _course =>
      match student.total_money with
      | none => .error .internal
      | some m =>
        let pid := next_payment_id db
        let payment : Payment := ⟨pid, amount, payment_date_obj, student_id, course_id⟩
        let new_total_money := m + amount
        .ok ({ db with
                payments := db.payments ++ [payment]
                students := db.students.map (fun s =>
                  if s.id == student_id then { s with total_money := some new_total_money } else s) },
              pid)

/-- `crud.payment.delete_payment`: remove the row, touch nothing else;
`none` when the payment id does not exist (the Python function returns
`False`). -/
def delete_payment (db : DB) (payment_id : Nat) : Option DB :=
  match db.payments.find? (fun p => p.id == payment_id) with
  | none => none
  | some _ =>
    some { db with payments := db.payments.eraseP (fun p => p.id == payment_id) }

/-- One row of the per-course debt report. -/
structure CourseStudentDebt where
  student_id : Nat
  months_enrolled : Int
  lessons_attended : Int
  expected_lessons : Int
  course_owed : ℚ
  course_payments : ℚ
  balance : ℚ
  debt : ℚ
deriving DecidableEq, Repr

/-- The aggregate response of `get_course_students_debt`. -/
structure CourseDebtReport where
  students : List CourseStudentDebt
  total_course_debt : ℚ
  students_with_debt : Nat
deriving DecidableEq, Repr

/-- The loop body of `get_course_students_debt`: the debt row built for
one enrollment (paired with its student row) of the course. -/
def course_debt_row (db : DB) (course : Course) (course_id : Nat) (today : PyDate)
    (ps : StudentCourseProgress × Student) : CourseStudentDebt :=
  let course_owed := calculate_owed_amount course ps.1 today
  let course_payments :=
    (((studentPayments db ps.2.id).filter (fun pay => pay.course_id == course_id)).map
      Payment.money).sum
  let balance := course_payments - course_owed
  { student_id := ps.2.id
    months_enrolled := calculate_months_enrolled ps.1.enrollment_date today
    lessons_attended := ps.1.lessons_attended
    expected_lessons := course.lesson_per_month * calculate_months_enrolled ps.1.enrollment_date today
    course_owed := course_owed
    course_payments := course_payments
    balance := balance
    debt := if balance < 0 then |balance| else 0 }

/-- `api.debt.get_course_students_debt` (`GET /course/{id}/students-debt`),
with `today` explicit. `progress.calculate_owed_amount()` reads
`progress.course`, which for an enrollment filtered on this `course_id`
is the course row found for `course_id`; dereferencing a missing student
row is `internal`. -/
def get_course_students_debt (db : DB) (course_id : Nat) (today : PyDate) :
    Except ApiError CourseDebtReport :=
  match findCourse db.courses course_id with
  | none => .error .notFound
  | some course =>
    let progress_records := db.progresses.filter (fun p => p.course_id == course_id)
    match progress_records.mapM (fun p => (findStudent db p.student_id).map (fun s => (p, s))) with
    | none => .error .internal
    | some pairs =>
      let rows := pairs.map (course_debt_row db course course_id today)
      .ok { students := rows
            total_course_debt := (rows.map CourseStudentDebt.debt).sum
            students_with_debt := (rows.filter (fun r => decide (0 < r.debt))).length }

instance : Inhabited Student := ⟨⟨0, 0, none, [], []⟩⟩

/-- Concrete fixture: a course costing 80 per month over 8 lessons. -/
def mathCourse : Course := ⟨2, "Math", 8, 80⟩

/-- Concrete fixture: a student with no attendance yet and balance 100. -/
def alice : Student := ⟨1, 0, some 100, [], [2]⟩

/-- Concrete fixture: a student holding one present attendance record. -/
def bob : Student := ⟨1, 3, some 100, [⟨⟨2024, 9, 2⟩, some 2, false, "ok"⟩], [2]⟩

/-- Concrete fixture: one student, one course, one enrollment, no payments. -/
def dbA : DB := ⟨[alice], [mathCourse], [⟨1, 2, 0, ⟨2024, 9, 1⟩⟩], []⟩

/-- Concrete fixture: a student with zero enrollments and a single payment
row of amount −10 (reachable through the unvalidated payment endpoint). -/
def dbB : DB := ⟨[⟨1, 0, some 0, [], []⟩], [], [], [⟨1, -10, ⟨2024, 9, 2⟩, 1, 2⟩]⟩

/-- The store `dbA` after `add_lessons_to_course` was fed the negative
count −3: both counters went negative. -/
def dbA_neg_lessons : DB :=
  ⟨[⟨1, -3, some 100, [], [2]⟩], [mathCourse], [⟨1, 2, -3, ⟨2024, 9, 1⟩⟩], []⟩

/-! ### Helper lemmas -/

theorem le_foldr_max (l : List Nat) (n : Nat) (h : n ∈ l) : n ≤ l.foldr max 0 := by
  induction l with
  | nil => cases h
  | cons a t ih =>
    rcases List.mem_cons.mp h with rfl | hm
    · exact le_max_left _ _
    · exact le_trans (ih hm) (le_max_right _ _)

theorem mapM_option_eq_map {α β : Type} (f : α → Option β) (g : α → β) (l : List α)
    (h : ∀ x ∈ l, f x = some (g x)) : l.mapM f = some (l.map g) := by
  induction l with
  | nil => rfl
  | cons a t ih =>
    rw [List.mapM_cons, h a (List.mem_cons_self a t),
      ih (fun x hx => h x (List.mem_cons_of_mem _ hx))]
    rfl

/-- `db.query(T).filter(T.id == i).update(...)` followed by
`filter(T.id == i).first()` reads back the updated row, provided the
update function keeps the id. -/
theorem find?_map_update_id {α : Type} (l : List α) (idf : α → Nat) (i : Nat) (g : α → α)
    (hg : ∀ t, idf (g t) = idf t) :
    (l.map (fun t => if idf t == i then g t else t)).find? (fun t => idf t == i)
      = (l.find? (fun t => idf t == i)).map g := by
  induction l with
  | nil => rfl
  | cons a t ih =>
    by_cases h : idf a = i
    · have hb : (idf a == i) = true := beq_iff_eq.mpr h
      have hb2 : (idf (g a) == i) = true := beq_iff_eq.mpr (by rw [hg]; exact h)
      rw [List.map_cons, if_pos hb, List.find?_cons, List.find?_cons, hb, hb2]
      rfl
    · have hb : (idf a == i) = false := by simp [h]
      rw [List.map_cons, if_neg (by simp [hb]), List.find?_cons, List.find?_cons, hb, ih]

theorem Student.deduct_lesson_cost_id (s : Student) (cid : Option Nat) (courses : List Course) :
    (Student.deduct_lesson_cost s cid courses).id = s.id := by
  unfold Student.deduct_lesson_cost
  repeat' split
  all_goals rfl

theorem Student.deduct_lesson_cost_num_lesson (s : Student) (cid : Option Nat) (courses : List Course) :
    (Student.deduct_lesson_cost s cid courses).num_lesson = s.num_lesson := by
  unfold Student.deduct_lesson_cost
  repeat' split
  all_goals rfl

theorem Student.deduct_lesson_cost_attendance (s : Student) (cid : Option Nat) (courses : List Course) :
    (Student.deduct_lesson_cost s cid courses).attendance = s.attendance := by
  unfold Student.deduct_lesson_cost
  repeat' split
  all_goals rfl

theorem Student.refund_lesson_cost_id (s : Student) (cid : Option Nat) (courses : List Course) :
    (Student.refund_lesson_cost s cid courses).id = s.id := by
  unfold Student.refund_lesson_cost
  repeat' split
  all_goals rfl

theorem Student.refund_lesson_cost_num_lesson (s : Student) (cid : Option Nat) (courses : List Course) :
    (Student.refund_lesson_cost s cid courses).num_lesson = s.num_lesson := by
  unfold Student.refund_lesson_cost
  repeat' split
  all_goals rfl

theorem Student.refund_lesson_cost_attendance (s : Student) (cid : Option Nat) (courses : List Course) :
    (Student.refund_lesson_cost s cid courses).attendance = s.attendance := by
  unfold Student.refund_lesson_cost
  repeat' split
  all_goals rfl

/-- Closed form of the `total_money` field after `_deduct_lesson_cost`. -/
theorem Student.deduct_lesson_cost_total_money (s : Student) (cid : Option Nat) (courses : List Course) :
    (Student.deduct_lesson_cost s cid courses).total_money =
      match cid with
      | none => s.total_money
      | some c =>
        if c = 0 then s.total_money
        else
          match findCourse courses c with
          | none => s.total_money
          | some course =>
            if 0 < course.lesson_per_month then
              some (s.total_money.getD 0 - course.cost / (course.lesson_per_month : ℚ))
            else s.total_money := by
  unfold Student.deduct_lesson_cost
  repeat' split
  all_goals simp_all

/-- Closed form of the `total_money` field after `_refund_lesson_cost`. -/
theorem Student.refund_lesson_cost_total_money (s : Student) (cid : Option Nat) (courses : List Course) :
    (Student.refund_lesson_cost s cid courses).total_money =
      match cid with
      | none => s.total_money
      | some c =>
        if c = 0 then s.total_money
        else
          match findCourse courses c with
          | none => s.total_money
          | some course =>
            if 0 < course.lesson_per_month then
              some (s.total_money.getD 0 + course.cost / (course.lesson_per_month : ℚ))
            else s.total_money := by
  unfold Student.refund_lesson_cost
  repeat' split
  all_goals simp_all

/-- Deducting after refunding restores a well-defined balance exactly. -/
theorem refund_then_deduct_total_money (s : Student) (cid : Option Nat) (courses : List Course)
    (m : ℚ) (h : s.total_money = some m) :
    (Student.deduct_lesson_cost (Student.refund_lesson_cost s cid courses) cid courses).total_money
      = some m := by
  rw [Student.deduct_lesson_cost_total_money, Student.refund_lesson_cost_total_money]
  cases cid with
  | none => exact h
  | some c =>
    by_cases h0 : c = 0
    · simp [h0, h]
    · simp only [h0, if_false]
      cases hf : findCourse courses c with
      | none => exact h
      | some course =>
        by_cases hl : 0 < course.lesson_per_month
        · simp [hl, h]
        · simp [hl, h]

/-- The `total_money` written by `_deduct_lesson_cost` depends on the
incoming student only through its `total_money`. -/
theorem deduct_total_money_congr (s t : Student) (cid : Option Nat) (courses : List Course)
    (h : s.total_money = t.total_money) :
    (Student.deduct_lesson_cost s cid courses).total_money
      = (Student.deduct_lesson_cost t cid courses).total_money := by
  rw [Student.deduct_lesson_cost_total_money, Student.deduct_lesson_cost_total_money, h]

theorem find?_updateFirst (l : List AttendanceRecord) (d : PyDate) (cid : Option Nat)
    (f : AttendanceRecord → AttendanceRecord)
    (hf : ∀ r, keyMatches r d cid = true → keyMatches (f r) d cid = true) :
    (updateFirst l d cid f).find? (fun r => keyMatches r d cid)
      = (l.find? (fun r => keyMatches r d cid)).map f := by
  induction l with
  | nil => rfl
  | cons a t ih =>
    by_cases h : keyMatches a d cid = true
    · simp [updateFirst, h, List.find?_cons, hf a h]
    · have h' : keyMatches a d cid = false := by simpa using h
      simp [updateFirst, h', List.find?_cons, ih]

/-- Unfolding of `add_attendance_record` on a fresh key with `is_absent = false`. -/
theorem add_attendance_new_present (s : Student) (d : PyDate) (rs : String)
    (cid : Option Nat) (courses : List Course)
    (h : s.attendance.find? (fun r => keyMatches r d cid) = none) :
    Student.add_attendance_record s d false rs cid courses =
      Student.deduct_lesson_cost
        { s with attendance := s.attendance ++ [⟨d, cid, false, rs⟩],
                 num_lesson := s.num_lesson + 1 } cid courses := by
  simp [Student.add_attendance_record, h]

/-- Unfolding of `add_attendance_record` flipping an existing present
record to absent. -/
theorem add_attendance_present_to_absent (s : Student) (d : PyDate) (rs : String)
    (cid : Option Nat) (courses : List Course) (r : AttendanceRecord)
    (h : s.attendance.find? (fun x => keyMatches x d cid) = some r)
    (habs : r.isAbsent = false) :
    Student.add_attendance_record s d true rs cid courses =
      Student.refund_lesson_cost
        { s with attendance := updateFirst s.attendance d cid
                   (fun x => { x with isAbsent := true, reason := rs, course_id := cid }),
                 num_lesson := max 0 (s.num_lesson - 1) } cid courses := by
  simp [Student.add_attendance_record, h, habs]

/-- Unfolding of `add_attendance_record` flipping an existing absent
record back to present. -/
theorem add_attendance_absent_to_present (s : Student) (d : PyDate) (rs : String)
    (cid : Option Nat) (courses : List Course) (r : AttendanceRecord)
    (h : s.attendance.find? (fun x => keyMatches x d cid) = some r)
    (habs : r.isAbsent = true) :
    Student.add_attendance_record s d false rs cid courses =
      Student.deduct_lesson_cost
        { s with attendance := updateFirst s.attendance d cid
                   (fun x => { x with isAbsent := false, reason := rs, course_id := cid }),
                 num_lesson := s.num_lesson + 1 } cid courses := by
  simp [Student.add_attendance_record, h, habs]

/-! ### Claim theorems -/

/-- C2 (counterexample): the spec's §8 example value is wrong on the
code: enrolling on Jan 31 and asking on Feb 1 gives `months_enrolled = 1`
(the formula value, matching the §4.2 prose), not 2. -/
theorem C2_counterexample :
    calculate_months_enrolled ⟨2024, 1, 31⟩ ⟨2024, 2, 1⟩ = 1 ∧
    calculate_months_enrolled ⟨2024, 1, 31⟩ ⟨2024, 2, 1⟩ ≠ 2 := by
  decide

/-- C2 (amended): for every enrollment date `E` and every `T` on or
after `E`, `months_enrolled(E, T)` equals
`(T.year − E.year) * 12 + (T.month − E.month)` clamped to a minimum of 1,
independent of the day-of-month of either date; `E` and `T` in the same
calendar month give 1; and `E` = Jan 31, `T` = Feb 1 gives 1 (not 2). -/
theorem C2_months_enrolled_formula (E T : PyDate) (_hle : PyDate.le E T) :
    calculate_months_enrolled E T
        = max 1 ((T.year - E.year) * 12 + (T.month - E.month)) ∧
    (∀ d1 d2 : Int, calculate_months_enrolled ⟨E.year, E.month, d1⟩ ⟨T.year, T.month, d2⟩
        = calculate_months_enrolled E T) ∧
    (T.year = E.year → T.month = E.month → calculate_months_enrolled E T = 1) ∧
    calculate_months_enrolled ⟨2024, 1, 31⟩ ⟨2024, 2, 1⟩ = 1 := by
  refine ⟨rfl, fun d1 d2 => rfl, fun h1 h2 => ?_, by decide⟩
  unfold calculate_months_enrolled
  omega

/-- C2 (witness for the amended theorem). -/
theorem C2_months_enrolled_formula_witness :
    calculate_months_enrolled ⟨2024, 9, 10⟩ ⟨2024, 9, 28⟩ = 1 :=
  (C2_months_enrolled_formula ⟨2024, 9, 10⟩ ⟨2024, 9, 28⟩ (by decide)).2.2.1 rfl rfl

/-- C9: the prorated-cost division of the balance helpers happens only
when a course id was supplied (and truthy), the course row exists and
its `lesson_per_month` is strictly positive (so the divisor is nonzero);
in every other case both helpers return the student unchanged. -/
theorem C9_lesson_cost_guard (courses : List Course) (cid : Option Nat) (s : Student) :
    (Student.deduct_lesson_cost s cid courses = s ∧
      Student.refund_lesson_cost s cid courses = s)
    ∨ ∃ c course, cid = some c ∧ c ≠ 0 ∧ findCourse courses c = some course ∧
        0 < course.lesson_per_month ∧ ((course.lesson_per_month : ℚ) ≠ 0) := by
  cases cid with
  | none => exact Or.inl ⟨rfl, rfl⟩
  | some c =>
    by_cases h0 : c = 0
    · refine Or.inl ⟨?_, ?_⟩
      · unfold Student.deduct_lesson_cost; simp [h0]
      · unfold Student.refund_lesson_cost; simp [h0]
    · cases hf : findCourse courses c with
      | none =>
        refine Or.inl ⟨?_, ?_⟩
        · unfold Student.deduct_lesson_cost; simp [h0, hf]
        · unfold Student.refund_lesson_cost; simp [h0, hf]
      | some course =>
        by_cases hl : 0 < course.lesson_per_month
        · exact Or.inr ⟨c, course, rfl, h0, hf, hl, Int.cast_ne_zero.mpr hl.ne'⟩
        · refine Or.inl ⟨?_, ?_⟩
          · unfold Student.deduct_lesson_cost; simp [h0, hf, hl]
          · unfold Student.refund_lesson_cost; simp [h0, hf, hl]

/-- C5: the partial-update and delete paths of the attendance ledger
leave `num_lesson` and `total_money` untouched, and both fail (return
`none`, reported as `NotFound`) when no record matches the key. -/
theorem C5_update_delete_frame (s : Student) (d : PyDate) (cid : Option Nat)
    (is_absent : Option Bool) (reason : Option String) :
    (∀ s', update_attendance_record s d cid is_absent reason = some s' →
        s'.num_lesson = s.num_lesson ∧ s'.total_money = s.total_money) ∧
    (∀ s', delete_attendance_record s d cid = some s' →
        s'.num_lesson = s.num_lesson ∧ s'.total_money = s.total_money) ∧
    ((∀ r ∈ s.attendance, keyMatches r d cid = false) →
        update_attendance_record s d cid is_absent reason = none ∧
        delete_attendance_record s d cid = none) := by
  refine ⟨?_, ?_, ?_⟩
  · intro s' h
    unfold update_attendance_record at h
    split at h
    · injection h with h'
      subst h'
      exact ⟨rfl, rfl⟩
    · exact Option.noConfusion h
  · intro s' h
    simp only [delete_attendance_record] at h
    split at h
    · injection h with h'
      subst h'
      exact ⟨rfl, rfl⟩
    · exact Option.noConfusion h
  · intro hall
    have hany : s.attendance.any (fun r => keyMatches r d cid) = false :=
      List.any_eq_false.mpr (fun r hr => by rw [hall r hr]; exact Bool.false_ne_true)
    have hfilt : s.attendance.filter (fun r => !(keyMatches r d cid)) = s.attendance :=
      List.filter_eq_self.mpr (fun r hr => by rw [hall r hr]; rfl)
    constructor
    · unfold update_attendance_record
      simp [hany]
    · unfold delete_attendance_record
      simp [hfilt]

/-- C5 (witness): a concrete partial update flipping `isAbsent` leaves
the counters alone. -/
theorem C5_update_delete_frame_witness :
    (⟨1, 3, some 100, [⟨⟨2024, 9, 2⟩, some 2, true, "u"⟩], [2]⟩ : Student).num_lesson
        = bob.num_lesson ∧
    (⟨1, 3, some 100, [⟨⟨2024, 9, 2⟩, some 2, true, "u"⟩], [2]⟩ : Student).total_money
        = bob.total_money :=
  (C5_update_delete_frame bob ⟨2024, 9, 2⟩ (some 2) (some true) (some "u")).1 _ (by rfl)

/-- C3 (counterexample): a student with zero enrollments whose only
payment row is negative (reachable, since the payment endpoint of
`api/debt.py` does not validate the amount) gets `owes_money = true`,
where the claim demands `owes_money = false` for every zero-enrollment
student. -/
theorem C3_counterexample :
    studentProgresses dbB 1 = [] ∧
    calculate_monthly_debt dbB 1 ⟨2024, 10, 1⟩ = .ok ⟨0, -10, -10, true, 10, 0⟩ := by
  constructor
  · rfl
  · simp only [calculate_monthly_debt, dbB, findStudent, studentProgresses, studentPayments,
      List.find?, List.filter, List.mapM, List.mapM.loop, List.map]
    norm_num

/-- C3 (amended): the per-student debt summary returns
`total_monthly_owed` = sum of per-enrollment owed amounts, `total_paid`
= sum of all of the student's payment rows (regardless of course),
`balance = total_paid − total_monthly_owed`, `owes_money = (balance <
0)`, `debt_amount = |balance|` when negative else 0, `overpaid_amount =
balance` when positive else 0; with zero enrollments,
`total_monthly_owed = 0`, `balance = total_paid`, and `owes_money` is
false whenever `total_paid ≥ 0` (it is `total_paid < 0` in general, not
unconditionally false); a missing student gives `NotFound`. -/
theorem C3_monthly_debt (db : DB) (student_id : Nat) (today : PyDate) (s : Student)
    (hs : findStudent db student_id = some s)
    (hfk : ∀ p ∈ studentProgresses db student_id, (findCourse db.courses p.course_id).isSome = true) :
    (∃ summary, calculate_monthly_debt db student_id today = .ok summary ∧
      summary.total_monthly_owed
          = ((studentProgresses db student_id).map (fun p => (owed_for db p today).getD 0)).sum ∧
      summary.total_paid = ((studentPayments db student_id).map Payment.money).sum ∧
      summary.balance = summary.total_paid - summary.total_monthly_owed ∧
      (summary.owes_money = true ↔ summary.balance < 0) ∧
      summary.debt_amount = (if summary.balance < 0 then |summary.balance| else 0) ∧
      summary.overpaid_amount = (if 0 < summary.balance then summary.balance else 0) ∧
      (studentProgresses db student_id = [] →
        summary.total_monthly_owed = 0 ∧ summary.balance = summary.total_paid ∧
        (0 ≤ summary.total_paid → summary.owes_money = false))) ∧
    (∀ sid2, findStudent db sid2 = none →
      calculate_monthly_debt db sid2 today = .error .notFound) := by
  constructor
  · have hmap : (studentProgresses db student_id).mapM (fun p => owed_for db p today)
        = some ((studentProgresses db student_id).map (fun p => (owed_for db p today).getD 0)) := by
      apply mapM_option_eq_map
      intro p hp
      cases hx : findCourse db.courses p.course_id with
      | none =>
        have h1 := hfk p hp
        rw [hx] at h1
        exact absurd h1 (by simp)
      | some c => simp [owed_for, hx]
    have hid : s.id = student_id := by
      have hs' : List.find? (fun t : Student => t.id == student_id) db.students = some s := hs
      have h1 := List.find?_some hs'
      simpa using h1
    unfold calculate_monthly_debt
    rw [hs, hmap]
    refine ⟨_, rfl, rfl, by rw [hid], rfl, ?_, rfl, rfl, ?_⟩
    · simp
    · intro h0
      rw [h0]
      refine ⟨by simp, by simp, ?_⟩
      intro hpaid
      have hP : ¬ ((List.map Payment.money (studentPayments db s.id)).sum < 0) :=
        not_lt.mpr hpaid
      simp only [List.map_nil, List.sum_nil, sub_zero]
      exact decide_eq_false hP
  · intro sid2 h2
    unfold calculate_monthly_debt
    rw [h2]

/-- C3 (witness for the amended theorem): the missing-student branch on
a concrete store. -/
theorem C3_monthly_debt_witness :
    calculate_monthly_debt dbA 99 ⟨2024, 11, 5⟩ = .error .notFound :=
  (C3_monthly_debt dbA 1 ⟨2024, 11, 5⟩ alice rfl (by decide)).2 99 rfl

/-- C6: enrollment creation raises `Conflict` on a duplicate (student,
course) pair, `NotFound` when the student or course is missing, defaults
the enrollment date to today, initializes `lessons_attended = 0`, and
adds the course to the student's course-membership list when absent. -/
theorem C6_enroll_course (db : DB) (sid cid : Nat) (ed : Option PyDate) (today : PyDate) :
    ((findStudent db sid = none ∨ findCourse db.courses cid = none) →
      enroll_student_in_course db sid cid ed today = .error .notFound) ∧
    (∀ s course, findStudent db sid = some s → findCourse db.courses cid = some course →
      ((∃ p ∈ db.progresses, p.student_id = sid ∧ p.course_id = cid) →
          enroll_student_in_course db sid cid ed today = .error .conflict) ∧
      ((∀ p ∈ db.progresses, ¬(p.student_id = sid ∧ p.course_id = cid)) →
          ∃ db', enroll_student_in_course db sid cid ed today = .ok db' ∧
            db'.progresses = db.progresses ++ [⟨sid, cid, 0, ed.getD today⟩] ∧
            (ed = none → db'.progresses = db.progresses ++ [⟨sid, cid, 0, today⟩]) ∧
            ∃ s', findStudent db' sid = some s' ∧ cid ∈ s'.courses ∧
              s'.courses = (if cid ∈ s.courses then s.courses else s.courses ++ [cid]))) := by
  constructor
  · rintro (h | h)
    · unfold enroll_student_in_course
      rw [h]
    · unfold enroll_student_in_course
      cases hfs : findStudent db sid with
      | none => rfl
      | some s => rw [h]
  · intro s course hs hc
    constructor
    · rintro ⟨p, hp, hp1, hp2⟩
      have hne : db.progresses.find? (fun q => q.student_id == sid && q.course_id == cid) ≠ none := by
        intro hnone
        rw [List.find?_eq_none] at hnone
        exact (hnone p hp) (by simp [hp1, hp2])
      cases hfind : db.progresses.find? (fun q => q.student_id == sid && q.course_id == cid) with
      | none => exact absurd hfind hne
      | some q =>
        unfold enroll_student_in_course
        rw [hs, hc, hfind]
    · intro hall
      have hfind : db.progresses.find? (fun q => q.student_id == sid && q.course_id == cid) = none :=
        List.find?_eq_none.mpr (fun q hq hcontra => by
          have h1 : q.student_id = sid ∧ q.course_id = cid := by simpa using hcontra
          exact hall q hq h1)
      unfold enroll_student_in_course
      rw [hs, hc, hfind]
      have hmap := find?_map_update_id db.students Student.id sid
        (fun t => if cid ∈ t.courses then t else { t with courses := t.courses ++ [cid] })
        (fun t => by by_cases h : cid ∈ t.courses <;> simp [h])
      refine ⟨_, rfl, rfl, fun hed => by subst hed; rfl, ?_⟩
      refine ⟨(if cid ∈ s.courses then s else { s with courses := s.courses ++ [cid] }), ?_, ?_, ?_⟩
      · show (db.students.map (fun t =>
            if t.id == sid then (if cid ∈ t.courses then t else { t with courses := t.courses ++ [cid] })
            else t)).find? (fun t => t.id == sid) = _
        rw [hmap, show db.students.find? (fun t => t.id == sid) = some s from hs]
        rfl
      · by_cases h : cid ∈ s.courses <;> simp [h]
      · by_cases h : cid ∈ s.courses <;> simp [h]

/-- C6 (witness): re-enrolling an already-enrolled pair on a concrete
store yields `Conflict`. -/
theorem C6_enroll_course_witness :
    enroll_student_in_course dbA 1 2 none ⟨2024, 10, 1⟩ = .error .conflict :=
  ((C6_enroll_course dbA 1 2 none ⟨2024, 10, 1⟩).2 alice mathCourse rfl rfl).1
    ⟨⟨1, 2, 0, ⟨2024, 9, 1⟩⟩, by simp [dbA], rfl, rfl⟩

theorem Student.add_attendance_record_id (s : Student) (d : PyDate) (is_absent : Bool)
    (reason : String) (course_id : Option Nat) (courses : List Course) :
    (Student.add_attendance_record s d is_absent reason course_id courses).id = s.id := by
  unfold Student.add_attendance_record
  split
  · dsimp only
    split_ifs <;> simp [Student.deduct_lesson_cost_id, Student.refund_lesson_cost_id]
  · dsimp only
    split_ifs <;> simp [Student.deduct_lesson_cost_id, Student.refund_lesson_cost_id]

/-- C1 (counterexample): recording a present attendance event for a new
(date, course) key on a concrete store appends the event, increments the
global lesson count and deducts the prorated cost, but leaves the
enrollment's `lessons_attended` at 0 — the claim's demanded increment to
1 does not happen (no code path of attendance recording touches
`StudentCourseProgress`). -/
theorem C1_counterexample :
    (crud_add_attendance_record dbA 1 ⟨2024, 9, 2⟩ false "" (some 2)).map
        (fun db => db.progresses.map StudentCourseProgress.lessons_attended) = some [0] ∧
    ¬ ((crud_add_attendance_record dbA 1 ⟨2024, 9, 2⟩ false "" (some 2)).map
        (fun db => db.progresses.map StudentCourseProgress.lessons_attended) = some [1]) ∧
    (crud_add_attendance_record dbA 1 ⟨2024, 9, 2⟩ false "" (some 2)).map
        (fun db => db.students.map Student.num_lesson) = some [1] ∧
    (crud_add_attendance_record dbA 1 ⟨2024, 9, 2⟩ false "" (some 2)).map
        (fun db => db.students.map Student.total_money) = some [some 90] := by
  refine ⟨rfl, by decide, rfl, ?_⟩
  simp only [crud_add_attendance_record, dbA, alice, mathCourse, findStudent, findCourse,
    Student.add_attendance_record, Student.deduct_lesson_cost, keyMatches,
    List.find?, List.map, List.filter]
  norm_num

/-- C1 (amended): for a new (date, course) key with an existing student
and course (positive `lesson_per_month`), recording a present event
appends the event to the ledger, increments the student's global lesson
count by exactly 1 and decreases the balance by exactly
`cost / lesson_per_month`; every enrollment row — in particular its
`lessons_attended` — and the other tables are left unchanged (the claimed
enrollment-scoped increment does not exist in the code). -/
theorem C1_record_present_attendance (db : DB) (sid : Nat) (d : PyDate) (reason : String)
    (cid : Nat) (s : Student) (m : ℚ) (course : Course)
    (hs : findStudent db sid = some s)
    (hm : s.total_money = some m)
    (hnew : s.attendance.find? (fun r => keyMatches r d (some cid)) = none)
    (hc0 : cid ≠ 0)
    (hc : findCourse db.courses cid = some course)
    (hl : 0 < course.lesson_per_month) :
    ∃ db', crud_add_attendance_record db sid d false reason (some cid) = some db' ∧
      db'.progresses = db.progresses ∧
      db'.payments = db.payments ∧
      db'.courses = db.courses ∧
      ∃ s', findStudent db' sid = some s' ∧
        s'.num_lesson = s.num_lesson + 1 ∧
        s'.total_money = some (m - course.cost / (course.lesson_per_month : ℚ)) ∧
        s'.attendance = s.attendance ++ [⟨d, some cid, false, reason⟩] := by
  unfold crud_add_attendance_record
  rw [hs]
  refine ⟨_, rfl, rfl, rfl, rfl, ?_⟩
  have hmap := find?_map_update_id db.students Student.id sid
    (fun t => Student.add_attendance_record t d false reason (some cid) db.courses)
    (fun t => Student.add_attendance_record_id t d false reason (some cid) db.courses)
  refine ⟨Student.add_attendance_record s d false reason (some cid) db.courses, ?_, ?_, ?_, ?_⟩
  · show (db.students.map (fun t =>
        if t.id == sid then Student.add_attendance_record t d false reason (some cid) db.courses
        else t)).find? (fun t => t.id == sid) = _
    rw [hmap, show db.students.find? (fun t => t.id == sid) = some s from hs]
    rfl
  · rw [add_attendance_new_present s d reason (some cid) db.courses hnew,
      Student.deduct_lesson_cost_num_lesson]
  · rw [add_attendance_new_present s d reason (some cid) db.courses hnew,
      Student.deduct_lesson_cost_total_money]
    simp [hc0, hc, hl, hm]
  · rw [add_attendance_new_present s d reason (some cid) db.courses hnew,
      Student.deduct_lesson_cost_attendance]

/-- C1 (witness for the amended theorem). -/
theorem C1_record_present_attendance_witness :
    (crud_add_attendance_record dbA 1 ⟨2024, 9, 2⟩ false "" (some 2)).map DB.progresses
      = some dbA.progresses := by
  obtain ⟨db', h1, h2, -⟩ :=
    C1_record_present_attendance dbA 1 ⟨2024, 9, 2⟩ "" 2 alice 100 mathCourse
      rfl rfl rfl (by decide) rfl (by decide)
  rw [h1]
  simp [Except.map, h2]

/-- C4: toggling an existing present event to absent and back to present
restores the balance exactly and restores the lesson count whenever it
was at least 1; when it was 0 (or below) the first flip floors at 0, so
the round trip ends at 1 instead. -/
theorem C4_toggle_roundtrip (courses : List Course) (s : Student) (d : PyDate)
    (c : Nat) (course : Course) (rs1 rs2 : String) (r : AttendanceRecord) (m : ℚ)
    (hr : s.attendance.find? (fun x => keyMatches x d (some c)) = some r)
    (habs : r.isAbsent = false)
    (hm : s.total_money = some m)
    (_hc : findCourse courses c = some course) :
    (Student.add_attendance_record s d true rs1 (some c) courses).num_lesson
        = max 0 (s.num_lesson - 1) ∧
    (Student.add_attendance_record (Student.add_attendance_record s d true rs1 (some c) courses)
        d false rs2 (some c) courses).num_lesson = max 1 s.num_lesson ∧
    (1 ≤ s.num_lesson →
      (Student.add_attendance_record (Student.add_attendance_record s d true rs1 (some c) courses)
          d false rs2 (some c) courses).num_lesson = s.num_lesson) ∧
    (Student.add_attendance_record (Student.add_attendance_record s d true rs1 (some c) courses)
        d false rs2 (some c) courses).total_money = some m := by
  have h1 := add_attendance_present_to_absent s d rs1 (some c) courses r hr habs
  have hfind1 : (updateFirst s.attendance d (some c)
      (fun x => { x with isAbsent := true, reason := rs1, course_id := some c })).find?
        (fun x => keyMatches x d (some c))
      = some { r with isAbsent := true, reason := rs1, course_id := some c } := by
    rw [find?_updateFirst s.attendance d (some c) _
      (fun x hx => by
        simp only [keyMatches] at hx ⊢
        simp only [Bool.and_eq_true] at hx ⊢
        exact ⟨hx.1, by simp⟩), hr]
    rfl
  have hfind1' : (Student.add_attendance_record s d true rs1 (some c) courses).attendance.find?
      (fun x => keyMatches x d (some c))
      = some { r with isAbsent := true, reason := rs1, course_id := some c } := by
    rw [h1, Student.refund_lesson_cost_attendance]
    exact hfind1
  have h2 := add_attendance_absent_to_present
    (Student.add_attendance_record s d true rs1 (some c) courses) d rs2 (some c) courses
    { r with isAbsent := true, reason := rs1, course_id := some c } hfind1' rfl
  refine ⟨?_, ?_, ?_, ?_⟩
  · rw [h1, Student.refund_lesson_cost_num_lesson]
  · rw [h2, Student.deduct_lesson_cost_num_lesson]
    show (Student.add_attendance_record s d true rs1 (some c) courses).num_lesson + 1 = _
    rw [h1, Student.refund_lesson_cost_num_lesson]
    show max 0 (s.num_lesson - 1) + 1 = max 1 s.num_lesson
    omega
  · intro hge
    rw [h2, Student.deduct_lesson_cost_num_lesson]
    show (Student.add_attendance_record s d true rs1 (some c) courses).num_lesson + 1 = _
    rw [h1, Student.refund_lesson_cost_num_lesson]
    show max 0 (s.num_lesson - 1) + 1 = s.num_lesson
    omega
  · have hcongr := deduct_total_money_congr
      { (Student.add_attendance_record s d true rs1 (some c) courses) with
          attendance := updateFirst
            (Student.add_attendance_record s d true rs1 (some c) courses).attendance d (some c)
            (fun x => { x with isAbsent := false, reason := rs2, course_id := some c }),
          num_lesson := (Student.add_attendance_record s d true rs1 (some c) courses).num_lesson + 1 }
      (Student.add_attendance_record s d true rs1 (some c) courses) (some c) courses rfl
    rw [h2, hcongr, h1]
    exact refund_then_deduct_total_money _ (some c) courses m hm

/-- C4 (witness): a concrete present→absent→present toggle restores
balance 100 and lesson count 3. -/
theorem C4_toggle_roundtrip_witness :
    (Student.add_attendance_record
        (Student.add_attendance_record bob ⟨2024, 9, 2⟩ true "sick" (some 2) [mathCourse])
        ⟨2024, 9, 2⟩ false "back" (some 2) [mathCourse]).num_lesson = bob.num_lesson ∧
    (Student.add_attendance_record
        (Student.add_attendance_record bob ⟨2024, 9, 2⟩ true "sick" (some 2) [mathCourse])
        ⟨2024, 9, 2⟩ false "back" (some 2) [mathCourse]).total_money = some 100 := by
  obtain ⟨-, -, h3, h4⟩ :=
    C4_toggle_roundtrip [mathCourse] bob ⟨2024, 9, 2⟩ 2 mathCourse "sick" "back"
      ⟨⟨2024, 9, 2⟩, some 2, false, "ok"⟩ 100 rfl rfl rfl rfl
  exact ⟨h3 (by decide), h4⟩

/-- C8 (counterexample): neither the lesson-count-addition endpoint nor
the debt-API payment endpoint validates positivity: `lessons_count = −3`
is applied to both counters (driving them to −3) and `amount = −50` is
recorded and added to the balance, instead of a `ValidationError`. -/
theorem C8_counterexample :
    add_lessons_to_course dbA 1 2 (-3) = .ok (dbA_neg_lessons, -3, -3) ∧
    add_lessons_to_course dbA 1 2 (-3) ≠ .error .validationError ∧
    (record_payment dbA 1 2 (-50) none ⟨2024, 9, 2⟩).map (fun x => x.1.payments)
      = .ok [⟨1, -50, ⟨2024, 9, 2⟩, 1, 2⟩] ∧
    (record_payment dbA 1 2 (-50) none ⟨2024, 9, 2⟩).map
        (fun x => x.1.students.map Student.total_money) = .ok [some 50] ∧
    record_payment dbA 1 2 (-50) none ⟨2024, 9, 2⟩ ≠ .error .validationError := by
  refine ⟨rfl, ?_, rfl, ?_, ?_⟩
  · intro h
    exact Except.noConfusion
      ((rfl : add_lessons_to_course dbA 1 2 (-3)
          = Except.ok (dbA_neg_lessons, (-3 : Int), (-3 : Int))).symm.trans h)
  · simp only [record_payment, dbA, alice, mathCourse, findStudent, findCourse, next_payment_id,
      List.find?, List.map, List.foldr, Except.map]
    norm_num
  · intro h
    have h1 : (record_payment dbA 1 2 (-50) none ⟨2024, 9, 2⟩).map (fun x => x.1.payments)
        = Except.ok [⟨1, -50, ⟨2024, 9, 2⟩, 1, 2⟩] := rfl
    rw [h] at h1
    exact Except.noConfusion h1

/-- C8 (amended): the two debt-API operations perform no positivity
validation at all: for every integer `lessons_count` (including zero and
negative values) the addition is applied to the enrollment's
`lessons_attended` and to the student's `num_lesson`, and for every
rational `amount` the payment row is inserted and `amount` added to the
stored balance counter. Positivity checks (`gt=0`) exist only in the
Pydantic schemas used by the generic payment-CRUD endpoint, not on this
path. -/
theorem C8_no_positivity_validation (db : DB) (sid cid : Nat) (k : Int) (amount : ℚ)
    (today : PyDate) (p : StudentCourseProgress) (s : Student) (course : Course) (m : ℚ)
    (hp : db.progresses.find? (fun q => q.student_id == sid && q.course_id == cid) = some p)
    (hs : findStudent db sid = some s)
    (hc : findCourse db.courses cid = some course)
    (hm : s.total_money = some m) :
    (∃ db1, add_lessons_to_course db sid cid k
        = .ok (db1, p.lessons_attended + k, s.num_lesson + k)) ∧
    (∃ db2, record_payment db sid cid amount none today = .ok (db2, next_payment_id db) ∧
      db2.payments = db.payments ++ [⟨next_payment_id db, amount, today, sid, cid⟩] ∧
      ∃ s', findStudent db2 sid = some s' ∧ s'.total_money = some (m + amount)) := by
  constructor
  · unfold add_lessons_to_course
    rw [hp, hs]
    exact ⟨_, rfl⟩
  · have key : record_payment db sid cid amount none today
        = Except.ok ({ db with
            payments := db.payments ++ [⟨next_payment_id db, amount, today, sid, cid⟩],
            students := db.students.map (fun t =>
              if t.id == sid then { t with total_money := some (m + amount) } else t) },
          next_payment_id db) := by
      unfold record_payment
      rw [hs, hc]
      dsimp only
      rw [hm]
      rfl
    refine ⟨_, key, rfl, ?_⟩
    have hmap := find?_map_update_id db.students Student.id sid
      (fun t => { t with total_money := some (m + amount) }) (fun t => rfl)
    refine ⟨{ s with total_money := some (m + amount) }, ?_, rfl⟩
    show (db.students.map (fun t =>
        if t.id == sid then { t with total_money := some (m + amount) } else t)).find?
        (fun t => t.id == sid) = _
    rw [hmap, show db.students.find? (fun t => t.id == sid) = some s from hs]
    rfl

/-- C8 (witness for the amended theorem). -/
theorem C8_no_positivity_validation_witness :
    (add_lessons_to_course dbA 1 2 (-3)).map (fun x => (x.2.1, x.2.2)) = .ok (-3, -3) := by
  obtain ⟨⟨db1, h1⟩, -⟩ := C8_no_positivity_validation dbA 1 2 (-3) (-50) ⟨2024, 9, 2⟩
    ⟨1, 2, 0, ⟨2024, 9, 1⟩⟩ alice mathCourse 100 rfl rfl rfl rfl
  rw [h1]
  rfl

/-- C10: recording a payment of amount `a` and then deleting the
inserted payment row removes the row but leaves the student's
denormalized `total_money` counter at its increased value, so the
counter ends up exceeding the sum of the student's payment rows by
exactly `a` more than before. -/
theorem C10_delete_payment_keeps_counter (db : DB) (sid cid : Nat) (a : ℚ) (pd : Option PyDate)
    (today : PyDate) (s : Student) (course : Course) (m : ℚ)
    (_ha : 0 < a)
    (hs : findStudent db sid = some s)
    (hm : s.total_money = some m)
    (hc : findCourse db.courses cid = some course) :
    ∃ db1 db2, record_payment db sid cid a pd today = .ok (db1, next_payment_id db) ∧
      delete_payment db1 (next_payment_id db) = some db2 ∧
      db2.payments = db.payments ∧
      db2.students = db1.students ∧
      ∃ s2, findStudent db2 sid = some s2 ∧ s2.total_money = some (m + a) ∧
        s2.total_money.getD 0 - ((studentPayments db2 sid).map Payment.money).sum
          = (m - ((studentPayments db sid).map Payment.money).sum) + a := by
  have hfresh : ∀ q ∈ db.payments, (q.id == next_payment_id db) = false := by
    intro q hq
    have hle : q.id ≤ (db.payments.map Payment.id).foldr max 0 :=
      le_foldr_max _ _ (List.mem_map_of_mem _ hq)
    have hne : q.id ≠ next_payment_id db := by
      unfold next_payment_id
      omega
    simp [hne]
  have key : record_payment db sid cid a pd today
      = Except.ok ({ db with
          payments := db.payments ++ [⟨next_payment_id db, a, pd.getD today, sid, cid⟩],
          students := db.students.map (fun t =>
            if t.id == sid then { t with total_money := some (m + a) } else t) },
        next_payment_id db) := by
    unfold record_payment
    rw [hs, hc]
    dsimp only
    rw [hm]
  have hfind : (db.payments ++ [(⟨next_payment_id db, a, pd.getD today, sid, cid⟩ : Payment)]).find?
      (fun q => q.id == next_payment_id db)
      = some (⟨next_payment_id db, a, pd.getD today, sid, cid⟩ : Payment) := by
    rw [List.find?_append,
      List.find?_eq_none.mpr (fun q hq => by rw [hfresh q hq]; exact Bool.false_ne_true)]
    simp [List.find?]
  have herase : (db.payments ++ [(⟨next_payment_id db, a, pd.getD today, sid, cid⟩ : Payment)]).eraseP
      (fun q => q.id == next_payment_id db) = db.payments := by
    rw [List.eraseP_append_right _ (fun q hq => by rw [hfresh q hq]; exact Bool.false_ne_true)]
    simp [List.eraseP_cons]
  have hdel : delete_payment { db with
        payments := db.payments ++ [⟨next_payment_id db, a, pd.getD today, sid, cid⟩],
        students := db.students.map (fun t =>
          if t.id == sid then { t with total_money := some (m + a) } else t) }
      (next_payment_id db)
      = some { db with
          payments := db.payments,
          students := db.students.map (fun t =>
            if t.id == sid then { t with total_money := some (m + a) } else t) } := by
    unfold delete_payment
    dsimp only
    rw [hfind]
    dsimp only
    rw [herase]
  refine ⟨_, _, key, hdel, rfl, rfl, ?_⟩
  have hmap := find?_map_update_id db.students Student.id sid
    (fun t => { t with total_money := some (m + a) }) (fun t => rfl)
  refine ⟨{ s with total_money := some (m + a) }, ?_, rfl, ?_⟩
  · show (db.students.map (fun t =>
        if t.id == sid then { t with total_money := some (m + a) } else t)).find?
        (fun t => t.id == sid) = _
    rw [hmap, show db.students.find? (fun t => t.id == sid) = some s from hs]
    rfl
  · show (m + a) - ((studentPayments { db with
        payments := db.payments,
        students := db.students.map (fun t =>
          if t.id == sid then { t with total_money := some (m + a) } else t) } sid).map
          Payment.money).sum
      = (m - ((studentPayments db sid).map Payment.money).sum) + a
    have hpays : studentPayments { db with
        payments := db.payments,
        students := db.students.map (fun t =>
          if t.id == sid then { t with total_money := some (m + a) } else t) } sid
        = studentPayments db sid := rfl
    rw [hpays]
    ring

/-- C10 (witness): concrete record-then-delete leaving the counter at
150 while the payment table is back to empty. -/
theorem C10_delete_payment_keeps_counter_witness :
    ∃ db1 db2, record_payment dbA 1 2 50 none ⟨2024, 9, 2⟩ = .ok (db1, next_payment_id dbA) ∧
      delete_payment db1 (next_payment_id dbA) = some db2 ∧
      db2.payments = dbA.payments := by
  obtain ⟨db1, db2, h1, h2, h3, -⟩ :=
    C10_delete_payment_keeps_counter dbA 1 2 50 none ⟨2024, 9, 2⟩ alice mathCourse 100
      (by norm_num) rfl rfl rfl
  exact ⟨db1, db2, h1, h2, h3⟩

/-- C7: the per-course debt summary derives each enrolled student's
balance from course-scoped payments only (adding a payment row of any
other course changes nothing in the report, unlike the student-level
summary which sums all payments), sets `debt = |balance|` exactly when
the balance is negative and 0 otherwise, and returns
`total_course_debt` = sum of the individual debts together with the
count of students whose debt is positive. -/
theorem C7_course_debt (db : DB) (cid : Nat) (today : PyDate) (course : Course)
    (hc : findCourse db.courses cid = some course)
    (hfk : ∀ p ∈ db.progresses.filter (fun q => q.course_id == cid),
        (findStudent db p.student_id).isSome = true) :
    ∃ report, get_course_students_debt db cid today = .ok report ∧
      report.total_course_debt = (report.students.map CourseStudentDebt.debt).sum ∧
      report.students_with_debt
          = (report.students.filter (fun r => decide (0 < r.debt))).length ∧
      (∀ row ∈ report.students,
        row.debt = (if row.balance < 0 then |row.balance| else 0) ∧
        row.balance = row.course_payments - row.course_owed ∧
        row.course_payments
          = (((studentPayments db row.student_id).filter (fun pay => pay.course_id == cid)).map
              Payment.money).sum) ∧
      (∀ extra : Payment, extra.course_id ≠ cid →
        get_course_students_debt { db with payments := db.payments ++ [extra] } cid today
          = .ok report) := by
  have hpair : (db.progresses.filter (fun q => q.course_id == cid)).mapM
      (fun p => (findStudent db p.student_id).map (fun s => (p, s)))
      = some ((db.progresses.filter (fun q => q.course_id == cid)).map
          (fun p => (p, (findStudent db p.student_id).getD default))) := by
    apply mapM_option_eq_map
    intro p hp
    cases hx : findStudent db p.student_id with
    | none =>
      have h1 := hfk p hp
      rw [hx] at h1
      exact absurd h1 (by simp)
    | some s => simp [hx]
  unfold get_course_students_debt
  rw [hc]
  dsimp only
  rw [hpair]
  dsimp only
  refine ⟨_, rfl, rfl, rfl, ?_, ?_⟩
  · intro row hrow
    obtain ⟨pr, _hpr, rfl⟩ := List.mem_map.mp hrow
    exact ⟨rfl, rfl, rfl⟩
  · intro extra hextra
    have hbe : (extra.course_id == cid) = false := by simp [hextra]
    have hpair2 : (db.progresses.filter (fun q => q.course_id == cid)).mapM
        (fun p => (findStudent { db with payments := db.payments ++ [extra] } p.student_id).map
          (fun s => (p, s)))
        = some ((db.progresses.filter (fun q => q.course_id == cid)).map
            (fun p => (p, (findStudent db p.student_id).getD default))) := by
      apply mapM_option_eq_map
      intro p hp
      have hfs : findStudent { db with payments := db.payments ++ [extra] } p.student_id
          = findStudent db p.student_id := rfl
      rw [hfs]
      cases hx : findStudent db p.student_id with
      | none =>
        have h1 := hfk p hp
        rw [hx] at h1
        exact absurd h1 (by simp)
      | some s => simp [hx]
    have hrowfun : ∀ ps : StudentCourseProgress × Student,
        course_debt_row { db with payments := db.payments ++ [extra] } course cid today ps
          = course_debt_row db course cid today ps := by
      intro ps
      unfold course_debt_row
      have hpay : (studentPayments { db with payments := db.payments ++ [extra] } ps.2.id).filter
            (fun pay => pay.course_id == cid)
          = (studentPayments db ps.2.id).filter (fun pay => pay.course_id == cid) := by
        show ((db.payments ++ [extra]).filter (fun q => q.student_id == ps.2.id)).filter
            (fun pay => pay.course_id == cid) = _
        rw [List.filter_append]
        by_cases hse : (extra.student_id == ps.2.id) = true
        · simp [studentPayments, List.filter_cons, hse, hbe, List.filter_append,
            List.filter_filter]
        · simp [studentPayments, List.filter_cons, hse, hbe, List.filter_append,
            List.filter_filter]
      rw [hpay]
    have hmaps : ((db.progresses.filter (fun q => q.course_id == cid)).map
          (fun p => (p, (findStudent db p.student_id).getD default))).map
            (course_debt_row { db with payments := db.payments ++ [extra] } course cid today)
        = ((db.progresses.filter (fun q => q.course_id == cid)).map
            (fun p => (p, (findStudent db p.student_id).getD default))).map
              (course_debt_row db course cid today) :=
      List.map_congr_left (fun ps _ => hrowfun ps)
    rw [hc]
    dsimp only
    rw [hpair2]
    dsimp only
    rw [hmaps]

/-- C7 (witness for the theorem). -/
theorem C7_course_debt_witness :
    (get_course_students_debt dbA 2 ⟨2024, 11, 5⟩).map
        (fun rep => (rep.students.map CourseStudentDebt.debt).sum = rep.total_course_debt)
      = .ok True := by
  obtain ⟨report, h1, h2, -⟩ := C7_course_debt dbA 2 ⟨2024, 11, 5⟩ mathCourse rfl (by decide)
  rw [h1]
  simp [Except.map, h2]
